import Mathlib

/-!
Verification of the searchgoat-jupyter client library.

This file gives a shallow embedding of the core logic of the library:
the NDJSON offset pager (`pagination.paginate_results`), the OAuth2 token
cache (`auth.TokenManager`), the job submission path
(`client.SearchClient.submit_async`) and the polling loop
(`client.SearchClient._wait_for_job`), together with theorems about them.

HTTP exchanges are modelled as explicit response values passed in; the
Python standard-library `json.loads` is modelled as an abstract decoding
function (a parameter of the pager), constrained only where a statement
needs a concrete behaviour of it.  Wall-clock time is modelled as an
integer number of seconds supplied by an explicit clock.  Loops are
written with explicit fuel; a `none` result means the fuel ran out before
the loop finished, and every theorem about a loop supplies enough fuel.
-/

namespace SearchGoat

/-- A JSON value, as produced by `json.loads`.  Numbers are restricted to
integers: the fields the client reads (`totalEventCount`, `numEvents`,
`expires_in`) are integral on the wire. -/
inductive JsonVal where
  | num (n : Int)
  | str (s : String)
  | bool (b : Bool)
  | null
  | arr (xs : List JsonVal)
  | obj (fields : List (String × JsonVal))
deriving Repr

/-- The whitespace characters removed by Python `str.strip()` for ASCII
input: space, tab, newline, carriage return, vertical tab, form feed. -/
def pyIsSpace (c : Char) : Bool :=
  c = ' ' || c = '\t' || c = '\n' || c = '\r' || c = '\x0b' || c = '\x0c'

/-- Drop leading whitespace from a character list. -/
def stripLeftChars : List Char → List Char
  | [] => []
  | c :: cs => if pyIsSpace c then stripLeftChars cs else c :: cs

/-- Python `str.strip()` with no arguments: remove leading and trailing
whitespace. -/
def pyStrip (s : String) : String :=
  String.mk (stripLeftChars (stripLeftChars s.data.reverse).reverse)

/-- Split a character list at newline characters.  Like Python
`str.split("\n")`, the result is never empty: the empty input gives one
empty field. -/
def splitLinesChars : List Char → List (List Char)
  | [] => [[]]
  | c :: cs =>
    if c = '\n' then [] :: splitLinesChars cs
    else
      match splitLinesChars cs with
      | [] => [[c]]
      | l :: ls => (c :: l) :: ls

/-- Python `str.split("\n")`.  On the empty string it returns `[""]`,
never the empty list. -/
def pySplitLines (s : String) : List String :=
  (splitLinesChars s.data).map String.mk

/-- Python dict `.get("totalEventCount", 0)` on the parsed metadata line,
read as an integer.  The client only ever compares this value against the
offset, and on the wire it is an integer; a missing key yields the
default `0`. -/
def getTotal (mj : JsonVal) : Int :=
  match mj with
  | .obj fields =>
    match fields.lookup "totalEventCount" with
    | some (.num n) => n
    | some _ => 0
    | none => 0
  | _ => 0

/-- Test for a 2xx HTTP status code; `httpx.Response.raise_for_status`
raises on everything else. -/
def is2xx (code : Nat) : Bool :=
  decide (200 ≤ code ∧ code < 300)

/-- An exception escaping one iteration of the pager. -/
inductive PagErr where
  | httpStatus (code : Nat)
  | jsonError (line : String) (msg : String)
deriving Repr, DecidableEq

/-- Result of running the body of one `while` iteration of
`paginate_results` on a response text: either the dead `if not lines:
break` branch, an exception raised after some records were already
yielded, or normal consumption of the page together with the new
`total_count`. -/
inductive PageStep where
  | emptyBreak
  | err (yielded : List JsonVal) (e : PagErr)
  | ok (yielded : List JsonVal) (total : Int)
deriving Repr

/-- The `for line in lines[1:]` loop of `paginate_results`: skip lines
that are blank after stripping, decode the rest in order; a decoding
failure raises after the earlier yields. -/
def yieldRecords (loads : String → Except String JsonVal) :
    List String → List JsonVal × Option PagErr
  | [] => ([], none)
  | l :: rest =>
    if pyStrip l = "" then yieldRecords loads rest
    else
      match loads l with
      | .error m => ([], some (.jsonError l m))
      | .ok v =>
        let t := yieldRecords loads rest
        (v :: t.1, t.2)

/-- Processing of one response body by `paginate_results`: split the
stripped text on newlines, decode the first line as metadata, take
`totalEventCount` (default 0) as the new total, then yield the remaining
non-blank lines in order. -/
def processBody (loads : String → Except String JsonVal) (body : String) :
    PageStep :=
  match pySplitLines (pyStrip body) with
  | [] => .emptyBreak
  | meta :: rest =>
    match loads meta with
    | .error m => .err [] (.jsonError meta m)
    | .ok mj =>
      let total := getTotal mj
      match yieldRecords loads rest with
      | (ys, some e) => .err ys e
      | (ys, none) => .ok ys total

/-- Observable outcome of a whole `paginate_results` run: the records
yielded in order, the `(limit, offset)` pairs of the GET requests issued
in order, and the exception that ended the run, if any. -/
structure PagOutcome where
  records : List JsonVal
  requests : List (Nat × Nat)
  err : Option PagErr
deriving Repr

/-- The `while True` loop of `paginate_results`.  The server is a
function from the `(limit, offset)` query parameters to the HTTP status
code and response text of the GET.  `offset` starts at 0 and grows by
`page_size` after each page; the loop breaks when the new offset reaches
the page's `totalEventCount` (`total_count` is reassigned from each
page's metadata and is never `None` at the break test). -/
def paginateResults (loads : String → Except String JsonVal)
    (server : Nat → Nat → Nat × String) (page_size : Nat) :
    Nat → Nat → Option PagOutcome
  | 0, _ => none
  | fuel + 1, offset =>
    let resp := server page_size offset
    if is2xx resp.1 then
      match processBody loads resp.2 with
      | .emptyBreak => some ⟨[], [(page_size, offset)], none⟩
      | .err ys e => some ⟨ys, [(page_size, offset)], some e⟩
      | .ok ys total =>
        if ((offset + page_size : Nat) : Int) ≥ total then
          some ⟨ys, [(page_size, offset)], none⟩
        else
          match paginateResults loads server page_size fuel
              (offset + page_size) with
          | none => none
          | some rest =>
            some ⟨ys ++ rest.records,
                  (page_size, offset) :: rest.requests, rest.err⟩
    else
      some ⟨[], [(page_size, offset)], some (.httpStatus resp.1)⟩

/-- The mutable fields of `auth.TokenManager`: the cached token string
(`_token`, `None` initially) and its absolute expiry instant
(`_expires_at`, 0 initially). -/
structure TokenState where
  token : Option String
  expires_at : Int
deriving Repr, DecidableEq

/-- Model of `TokenManager.REFRESH_BUFFER_SECONDS`: refresh 5 minutes before
expiry. -/
def REFRESH_BUFFER_SECONDS : Int := 300

/-- Model of `TokenManager._is_token_valid`: the token exists and the current time
is strictly before expiry minus the refresh buffer. -/
def is_token_valid (st : TokenState) (now : Int) : Bool :=
  match st.token with
  | none => false
  | some _ => decide (now < st.expires_at - REFRESH_BUFFER_SECONDS)

/-- Outcome of the HTTP exchange inside `TokenManager._authenticate`:
either `raise_for_status` raised (`httpx.HTTPStatusError`, a non-2xx
response), the request itself failed (`httpx.RequestError`), or a 2xx
response whose JSON body carries `access_token` and an optional
`expires_in`. -/
inductive AuthResp where
  | httpStatusError (code : Nat) (text : String)
  | requestError (msg : String)
  | success (access_token : String) (expires_in : Option Int)
deriving Repr

/-- Model of `TokenManager._authenticate`: a non-2xx response or a network failure
maps to `AuthenticationError` (carrying the status and body, or the
underlying message) and leaves the fields untouched — the assignments to
`_token` and `_expires_at` sit after the try block, so they only run on
success, where `expires_in` defaults to 86400 seconds. -/
def authenticate (nowAuth : Int) (resp : AuthResp) :
    Except String TokenState :=
  match resp with
  | .httpStatusError code text =>
    .error ("Authentication failed: " ++ toString code ++ " - " ++ text)
  | .requestError m =>
    .error ("Authentication request failed: " ++ m)
  | .success tok expIn =>
    .ok { token := some tok, expires_at := nowAuth + expIn.getD 86400 }

/-- Observable outcome of one `TokenManager.get_token` call: the returned
token or raised `AuthenticationError`, the cache state after the call,
and how many authentication requests were performed. -/
structure GetTokenResult where
  result : Except String String
  state : TokenState
  authCalls : Nat
deriving Repr

/-- Model of `TokenManager.get_token`: if the cached token is invalid,
re-authenticate (exactly one request) before returning `_token`;
otherwise return the cached token with no request.  `now` is the
wall-clock reading inside `_is_token_valid`; `nowAuth` the (later)
reading when a successful authentication response is processed. -/
def get_token (st : TokenState) (now nowAuth : Int) (resp : AuthResp) :
    GetTokenResult :=
  if is_token_valid st now then
    { result := .ok (st.token.getD ""), state := st, authCalls := 0 }
  else
    match authenticate nowAuth resp with
    | .error e => { result := .error e, state := st, authCalls := 1 }
    | .ok st2 =>
      { result := .ok (st2.token.getD ""), state := st2, authCalls := 1 }

/-- Model of `TokenManager.clear`: drop the token and reset the expiry to 0. -/
def clearToken : TokenState :=
  { token := none, expires_at := 0 }

/-- Decimal digit test (`'0'` to `'9'`). -/
def pyIsDigit (c : Char) : Bool :=
  48 ≤ c.toNat && c.toNat ≤ 57

/-- Accumulate a run of decimal digits; any non-digit character fails. -/
def parseDigits : List Char → Nat → Option Nat
  | [], acc => some acc
  | c :: rest, acc =>
    if pyIsDigit c then parseDigits rest (10 * acc + (c.toNat - 48))
    else none

/-- Python `int(s)` on the string value of a `Retry-After` header:
strip whitespace, then parse an optionally signed nonempty run of
decimal digits; anything else raises `ValueError` (here `none`). -/
def pyInt (s : String) : Option Int :=
  match (pyStrip s).data with
  | [] => none
  | '-' :: cs =>
    match cs with
    | [] => none
    | _ => (parseDigits cs 0).map (fun n => -(n : Int))
  | '+' :: cs =>
    match cs with
    | [] => none
    | _ => (parseDigits cs 0).map (fun n => (n : Int))
  | cs => (parseDigits cs 0).map (fun n => (n : Int))

/-- The response to the submit POST, as far as `submit_async` reads it:
the status code, the body text (quoted by `QuerySyntaxError`), the
`Retry-After` header if present, and the parsed JSON body (an `Except`
because `response.json()` can itself fail; it is only consulted on the
2xx path). -/
structure SubmitResp where
  status_code : Nat
  text : String
  retry_after : Option String
  body : Except String JsonVal

/-- Outcome of `SearchClient.submit_async` after the POST returns:
which exception is raised, or the id of the created `SearchJob`. -/
inductive SubmitOutcome where
  | querySyntaxError (msg : String)
  | rateLimitError (msg : String) (retry_after : Int)
  | valueError (s : String)
  | httpStatusError (code : Nat)
  | jsonError (msg : String)
  | keyError
  | ok (job_id : String)
deriving Repr, DecidableEq

/-- Extraction of `data["items"][0]["id"]` from the submit response
body. -/
def items0id (j : JsonVal) : Option String :=
  match j with
  | .obj fields =>
    match fields.lookup "items" with
    | some (.arr (x :: _)) =>
      match x with
      | .obj ifields =>
        match ifields.lookup "id" with
        | some (.str s) => some s
        | _ => none
      | _ => none
    | _ => none
  | _ => none

/-- Model of `SearchClient.submit_async`, from the moment the POST response is in
hand: status 400 raises `QuerySyntaxError` quoting the body text; 429
raises `RateLimitError` with `retry_after` from the `Retry-After` header
(`int` of the header value, default 60 when absent); any other non-2xx
raises via `raise_for_status`; otherwise the job id is read from
`items[0].id` and a `SearchJob` in status NEW is returned. -/
def submit_async (resp : SubmitResp) : SubmitOutcome :=
  if resp.status_code = 400 then
    .querySyntaxError ("Invalid query: " ++ resp.text)
  else if resp.status_code = 429 then
    match resp.retry_after with
    | none => .rateLimitError "Rate limit exceeded" 60
    | some s =>
      match pyInt s with
      | none => .valueError s
      | some n => .rateLimitError "Rate limit exceeded" n
  else if is2xx resp.status_code then
    match resp.body with
    | .error m => .jsonError m
    | .ok j =>
      match items0id j with
      | none => .keyError
      | some jid => .ok jid
  else
    .httpStatusError resp.status_code

/-- Model of `job.JobStatus`: the closed set of job states. -/
inductive JobStatus where
  | new
  | queued
  | running
  | completed
  | failed
  | canceled
deriving Repr, DecidableEq

/-- The string value of each `JobStatus` member. -/
def JobStatus.toStr : JobStatus → String
  | .new => "new"
  | .queued => "queued"
  | .running => "running"
  | .completed => "completed"
  | .failed => "failed"
  | .canceled => "canceled"

/-- Model of `JobStatus(status_str)`: look an incoming string up among the enum
values; an unknown string raises `ValueError` (here `none`). -/
def JobStatus.ofStr : String → Option JobStatus
  | "new" => some .new
  | "queued" => some .queued
  | "running" => some .running
  | "completed" => some .completed
  | "failed" => some .failed
  | "canceled" => some .canceled
  | _ => none

/-- Whether a status is terminal (COMPLETED, FAILED or CANCELED). -/
def JobStatus.isTerminal : JobStatus → Bool
  | .completed => true
  | .failed => true
  | .canceled => true
  | _ => false

/-- Position of a status along NEW → QUEUED → RUNNING → terminal. -/
def JobStatus.rank : JobStatus → Nat
  | .new => 0
  | .queued => 1
  | .running => 2
  | _ => 3

/-- One forward step of the job state machine: from a terminal status
only the same status is allowed; otherwise the rank may not decrease. -/
def stepOK (a b : JobStatus) : Bool :=
  if a.isTerminal then decide (a = b) else decide (a.rank ≤ b.rank)

/-- The part of one status GET response that `_wait_for_job` reads: the
HTTP status code, `items[0]["status"]`, and the optional
`items[0]["numEvents"]` and `items[0]["error"]` fields. -/
structure StatusResp where
  status_code : Nat
  status : String
  numEvents : Option Int
  error : Option String

/-- The mutable fields of a `SearchJob` that `_wait_for_job` touches. -/
structure JobState where
  status : JobStatus
  record_count : Option Int
deriving Repr, DecidableEq

/-- How one `_wait_for_job` call ends. -/
inductive WaitOutcome where
  | timeoutError (msg : String)
  | httpStatusError (code : Nat)
  | valueError (s : String)
  | completedOk
  | jobFailed (msg : String) (job_id : String)
deriving Repr, DecidableEq

/-- Observable outcome of one `_wait_for_job` call: how it ended, the
job's state afterwards, the number of status GETs issued, the number of
`sleep(poll_interval)` calls, and the statuses assigned to
`job.status`, in order. -/
structure WaitResult where
  outcome : WaitOutcome
  job : JobState
  polls : Nat
  sleeps : Nat
  statusTrace : List JobStatus
deriving Repr, DecidableEq

/-- The `while True` loop of `SearchClient._wait_for_job`.  `clock k` is
the `time.time()` reading at the top of iteration `k` (poll intervals
and request durations are folded into it).  Each iteration first checks
the elapsed time against the timeout — before any GET — then issues the
GET (`resps k`), assigns the parsed status to `job.status`, and either
returns (COMPLETED, setting `record_count` from `numEvents` with default
0), raises `JobFailedError` (FAILED with the server's error message,
default "Unknown error"; CANCELED with a fixed message), or sleeps
`poll_interval` seconds and repeats. -/
def waitLoop (jobId : String) (timeout : Int) (startTime : Int)
    (clock : Nat → Int) (resps : Nat → StatusResp) :
    Nat → Nat → JobState → Option WaitResult
  | 0, _, _ => none
  | fuel + 1, k, st =>
    if clock k - startTime > timeout then
      some { outcome := .timeoutError ("Job " ++ jobId ++
               " did not complete within " ++ toString timeout ++ " seconds"),
             job := st, polls := 0, sleeps := 0, statusTrace := [] }
    else
      let r := resps k
      if is2xx r.status_code then
        match JobStatus.ofStr r.status with
        | none =>
          some { outcome := .valueError r.status, job := st,
                 polls := 1, sleeps := 0, statusTrace := [] }
        | some s =>
          let st1 : JobState := { st with status := s }
          if s = .completed then
            some { outcome := .completedOk,
                   job := { st1 with record_count := some (r.numEvents.getD 0) },
                   polls := 1, sleeps := 0, statusTrace := [s] }
          else if s = .failed then
            some { outcome := .jobFailed (r.error.getD "Unknown error") jobId,
                   job := st1, polls := 1, sleeps := 0, statusTrace := [s] }
          else if s = .canceled then
            some { outcome := .jobFailed "Job was canceled" jobId,
                   job := st1, polls := 1, sleeps := 0, statusTrace := [s] }
          else
            match waitLoop jobId timeout startTime clock resps fuel (k + 1) st1 with
            | none => none
            | some rest =>
              some { outcome := rest.outcome, job := rest.job,
                     polls := 1 + rest.polls, sleeps := 1 + rest.sleeps,
                     statusTrace := s :: rest.statusTrace }
      else
        some { outcome := .httpStatusError r.status_code, job := st,
               polls := 1, sleeps := 0, statusTrace := [] }

/-! ## Theorems -/

/-- C2: `get_token` returns the cached token without any authentication
request exactly when a token is present and `now < expiry - 300`;
in every other state (no token, or `now ≥ expiry - 300`) it performs
exactly one re-authentication. -/
theorem get_token_cache_validity (st : TokenState) (now nowAuth : Int)
    (resp : AuthResp) :
    (is_token_valid st now = true ↔
      st.token.isSome = true ∧ now < st.expires_at - 300) ∧
    (∀ tok, st.token = some tok → now < st.expires_at - 300 →
      get_token st now nowAuth resp =
        { result := .ok tok, state := st, authCalls := 0 }) ∧
    ((st.token = none ∨ st.expires_at - 300 ≤ now) →
      (get_token st now nowAuth resp).authCalls = 1) := by
  refine ⟨?_, ?_, ?_⟩
  · unfold is_token_valid REFRESH_BUFFER_SECONDS
    cases h : st.token <;> simp [h]
  · intro tok htok hlt
    unfold get_token
    rw [if_pos]
    · simp [htok]
    · unfold is_token_valid REFRESH_BUFFER_SECONDS
      rw [htok]
      simpa using hlt
  · intro hinvalid
    have hvalid : is_token_valid st now = false := by
      unfold is_token_valid REFRESH_BUFFER_SECONDS
      rcases hinvalid with h | h
      · simp [h]
      · cases htok : st.token <;> simp [htok, not_lt.mpr h]
    unfold get_token
    rw [if_neg (by simp [hvalid])]
    cases authenticate nowAuth resp <;> rfl

/-- C2 witness: a token expiring in 500 seconds is served from the cache
with no authentication request; an empty cache triggers exactly one. -/
theorem get_token_cache_validity_witness :
    get_token { token := some "tokA", expires_at := 1000 } 500 600
        (.success "tokB" (some 3600)) =
      { result := .ok "tokA",
        state := { token := some "tokA", expires_at := 1000 },
        authCalls := 0 } ∧
    (get_token { token := none, expires_at := 1000 } 900 950
        (.success "tokB" (some 3600))).authCalls = 1 :=
  ⟨(get_token_cache_validity { token := some "tokA", expires_at := 1000 }
      500 600 (.success "tokB" (some 3600))).2.1 "tokA" rfl (by decide),
   (get_token_cache_validity { token := none, expires_at := 1000 }
      900 950 (.success "tokB" (some 3600))).2.2 (Or.inl rfl)⟩

/-- C10: whenever `get_token` raises `AuthenticationError`, the cache is
left exactly as it was: the assignments to `_token` and `_expires_at` in
`_authenticate` sit after the try block and never run on failure. -/
theorem get_token_error_preserves_state (st : TokenState)
    (now nowAuth : Int) (resp : AuthResp) (e : String)
    (h : (get_token st now nowAuth resp).result = .error e) :
    (get_token st now nowAuth resp).state = st := by
  unfold get_token at h ⊢
  by_cases hv : is_token_valid st now = true
  · simp [hv] at h
  · rw [if_neg hv] at h ⊢
    cases ha : authenticate nowAuth resp <;> simp [ha] at h ⊢

/-- C10 witness: a 401 on the credential exchange leaves an empty cache
empty. -/
theorem get_token_error_preserves_state_witness :
    (get_token { token := none, expires_at := 0 } 10 11
        (.httpStatusError 401 "denied")).state =
      { token := none, expires_at := 0 } :=
  get_token_error_preserves_state { token := none, expires_at := 0 } 10 11
    (.httpStatusError 401 "denied") "Authentication failed: 401 - denied" rfl

/-- C5: on submit, a 400 response raises `QuerySyntaxError` carrying the
server response text, and a 429 response raises `RateLimitError` whose
`retry_after` is the integer value of the `Retry-After` header,
defaulting to 60 when the header is absent. -/
theorem submit_async_400_429 (resp : SubmitResp) :
    (resp.status_code = 400 →
      submit_async resp = .querySyntaxError ("Invalid query: " ++ resp.text)) ∧
    (resp.status_code = 429 → resp.retry_after = none →
      submit_async resp = .rateLimitError "Rate limit exceeded" 60) ∧
    (∀ s n, resp.status_code = 429 → resp.retry_after = some s →
      pyInt s = some n →
      submit_async resp = .rateLimitError "Rate limit exceeded" n) := by
  refine ⟨?_, ?_, ?_⟩
  · intro h400
    unfold submit_async
    rw [if_pos h400]
  · intro h429 hno
    unfold submit_async
    rw [if_neg (by omega), if_pos h429, hno]
  · intro s n h429 hsome hparse
    unfold submit_async
    rw [if_neg (by omega), if_pos h429, hsome]
    simp [hparse]

/-- Submit response: HTTP 400 with body text "bad query". -/
def resp400 : SubmitResp :=
  { status_code := 400, text := "bad query", retry_after := none,
    body := .error "" }

/-- Submit response: HTTP 429 with a `Retry-After: 120` header. -/
def resp429with : SubmitResp :=
  { status_code := 429, text := "", retry_after := some "120",
    body := .error "" }

/-- Submit response: HTTP 429 without a `Retry-After` header. -/
def resp429without : SubmitResp :=
  { status_code := 429, text := "", retry_after := none,
    body := .error "" }

/-- C5 witness: a 400 carrying "bad query" raises `QuerySyntaxError`
quoting it; a 429 with `Retry-After: 120` gives `retry_after = 120`; a
429 without the header gives `retry_after = 60`. -/
theorem submit_async_400_429_witness :
    submit_async resp400 =
      .querySyntaxError ("Invalid query: " ++ "bad query") ∧
    submit_async resp429with = .rateLimitError "Rate limit exceeded" 120 ∧
    submit_async resp429without = .rateLimitError "Rate limit exceeded" 60 :=
  ⟨(submit_async_400_429 resp400).1 rfl,
   (submit_async_400_429 resp429with).2.2 "120" 120 rfl rfl (by decide),
   (submit_async_400_429 resp429without).2.1 rfl rfl⟩

/-- A decoder that rejects every line, as `json.loads` does on the empty
string (message "Expecting value"). -/
def loadsNone (s : String) : Except String JsonVal :=
  .error "Expecting value"

/-- A server whose GET responses are always HTTP 200 with an empty
body. -/
def serverEmpty (limit offset : Nat) : Nat × String :=
  (200, "")

/-- C1: a 2xx response with an empty body does NOT terminate pagination
cleanly.  `split("\n")` on the empty string returns `[""]`, never the
empty list, so the `if not lines: break` guard is dead and the metadata
decode of the empty first line raises; the run yields no records and
ends in a `json` decoding error instead of a silent break. -/
theorem paginate_empty_body_raises :
    pySplitLines (pyStrip "") = [""] ∧
    paginateResults loadsNone serverEmpty 1000 1 0 =
      some { records := [],
             requests := [(1000, 0)],
             err := some (.jsonError "" "Expecting value") } :=
  ⟨rfl, rfl⟩

/-- The record-yield loop on lines that all decode (blank lines skipped):
it returns the decoded non-blank lines in order and raises nothing. -/
theorem yieldRecords_of_all_ok (loads : String → Except String JsonVal)
    (f : String → JsonVal) :
    ∀ ls : List String,
      (∀ l ∈ ls, pyStrip l ≠ "" → loads l = .ok (f l)) →
      yieldRecords loads ls =
        ((ls.filter (fun l => pyStrip l != "")).map f, none) := by
  intro ls
  induction ls with
  | nil => intro _; rfl
  | cons l rest ih =>
    intro h
    have hrest := ih (fun x hx => h x (List.mem_cons_of_mem l hx))
    by_cases hb : pyStrip l = ""
    · simp only [yieldRecords]
      rw [if_pos hb, hrest]
      simp [List.filter_cons, hb]
    · have hl : loads l = .ok (f l) := h l (List.mem_cons_self l rest) hb
      simp only [yieldRecords]
      rw [if_neg hb, hl]
      simp [hrest, List.filter_cons, hb]

/-- C4: on a non-empty page body whose first line decodes as metadata,
the pager takes `totalEventCount` from that first line (default 0 when
the key is absent), yields each subsequent non-blank line as one decoded
record in file order, skips blank lines, and hence yields exactly as
many records as there are non-blank record lines. -/
theorem processBody_metadata_and_records
    (loads : String → Except String JsonVal) (body meta : String)
    (rest : List String) (mj : JsonVal) (f : String → JsonVal)
    (hlines : pySplitLines (pyStrip body) = meta :: rest)
    (hmeta : loads meta = .ok mj)
    (hrecs : ∀ l ∈ rest, pyStrip l ≠ "" → loads l = .ok (f l)) :
    processBody loads body =
      .ok ((rest.filter (fun l => pyStrip l != "")).map f) (getTotal mj) ∧
    ((rest.filter (fun l => pyStrip l != "")).map f).length =
      (rest.filter (fun l => pyStrip l != "")).length ∧
    (∀ fields, mj = .obj fields →
      fields.lookup "totalEventCount" = none → getTotal mj = 0) := by
  refine ⟨?_, List.length_map _ _, ?_⟩
  · unfold processBody
    rw [hlines]
    simp only [hmeta, yieldRecords_of_all_ok loads f rest hrecs]
  · intro fields hobj habsent
    subst hobj
    simp [getTotal, habsent]

/-- NDJSON record line with id 1. -/
def recLine1 : String := "\x7b\"id\":1\x7d"

/-- NDJSON record line with id 2. -/
def recLine2 : String := "\x7b\"id\":2\x7d"

/-- NDJSON record line with id 3. -/
def recLine3 : String := "\x7b\"id\":3\x7d"

/-- The record with id 1. -/
def recVal1 : JsonVal := .obj [("id", .num 1)]

/-- The record with id 2. -/
def recVal2 : JsonVal := .obj [("id", .num 2)]

/-- The record with id 3. -/
def recVal3 : JsonVal := .obj [("id", .num 3)]

/-- Metadata line of a single-page result set with 2 events. -/
def metaC4 : String :=
  "\x7b\"isFinished\":true,\"totalEventCount\":2,\"offset\":0\x7d"

/-- Parsed form of `metaC4`. -/
def mjC4 : JsonVal :=
  .obj [("isFinished", .bool true), ("totalEventCount", .num 2),
        ("offset", .num 0)]

/-- A page body whose record lines are interleaved with blank lines. -/
def bodyC4 : String :=
  metaC4 ++ "\n\n" ++ recLine1 ++ "\n\n" ++ recLine2 ++ "\n"

/-- The behaviour of `json.loads` on the lines of `bodyC4`. -/
def loadsC4 (s : String) : Except String JsonVal :=
  if s = metaC4 then .ok mjC4
  else if s = recLine1 then .ok recVal1
  else if s = recLine2 then .ok recVal2
  else .error "Expecting value"

/-- Decoded value of each record line of `bodyC4`. -/
def fC4 (l : String) : JsonVal :=
  if l = recLine1 then recVal1 else recVal2

/-- C4 witness: a metadata line plus two records with interleaved blank
lines yields exactly the two records, in order, with total 2. -/
theorem processBody_metadata_and_records_witness :
    processBody loadsC4 bodyC4 = .ok [recVal1, recVal2] (getTotal mjC4) := by
  have h := (processBody_metadata_and_records loadsC4 bodyC4 metaC4
      ["", recLine1, "", recLine2] mjC4 fC4 (by decide) rfl
      (by
        intro l hl hne
        simp only [List.mem_cons, List.not_mem_nil, or_false] at hl
        rcases hl with h1 | h1 | h1 | h1 <;> subst h1
        · exact absurd (by decide) hne
        · rfl
        · exact absurd (by decide) hne
        · rfl)).1
  rw [h]
  rfl

/-- Metadata line of page 1 of a 3-event result set. -/
def metaP1 : String :=
  "\x7b\"isFinished\":false,\"totalEventCount\":3,\"offset\":0\x7d"

/-- Metadata line of page 2 of a 3-event result set. -/
def metaP2 : String :=
  "\x7b\"isFinished\":true,\"totalEventCount\":3,\"offset\":2\x7d"

/-- First page body: metadata plus records 1 and 2. -/
def page1 : String := metaP1 ++ "\n" ++ recLine1 ++ "\n" ++ recLine2 ++ "\n"

/-- Second page body: metadata plus record 3. -/
def page2 : String := metaP2 ++ "\n" ++ recLine3 ++ "\n"

/-- The behaviour of `json.loads` on the lines of the two pages. -/
def loadsPages (s : String) : Except String JsonVal :=
  if s = metaP1 then
    .ok (.obj [("isFinished", .bool false), ("totalEventCount", .num 3),
               ("offset", .num 0)])
  else if s = metaP2 then
    .ok (.obj [("isFinished", .bool true), ("totalEventCount", .num 3),
               ("offset", .num 2)])
  else if s = recLine1 then .ok recVal1
  else if s = recLine2 then .ok recVal2
  else if s = recLine3 then .ok recVal3
  else .error "Expecting value"

/-- A server holding a 3-event result set served 2 records per page. -/
def serverPages (limit offset : Nat) : Nat × String :=
  if offset = 0 then (200, page1) else (200, page2)

/-- A server that always returns page 2. -/
def serverPage2 (limit offset : Nat) : Nat × String :=
  (200, page2)

/-- C3: the pager stops as soon as the incremented offset reaches the
page's reported total (in particular when the total is zero or
negative); on a `totalEventCount = 3` result set with page size 2 it
issues exactly the two GETs `(limit 2, offset 0)` and
`(limit 2, offset 2)` and yields the three records in order. -/
theorem paginate_two_pages :
    (∀ (loads : String → Except String JsonVal)
        (server : Nat → Nat → Nat × String) (ps off fuel : Nat)
        (ys : List JsonVal) (total : Int),
      is2xx (server ps off).1 = true →
      processBody loads (server ps off).2 = .ok ys total →
      ((off + ps : Nat) : Int) ≥ total →
      paginateResults loads server ps (fuel + 1) off =
        some { records := ys, requests := [(ps, off)], err := none }) ∧
    paginateResults loadsPages serverPages 2 2 0 =
      some { records := [recVal1, recVal2, recVal3],
             requests := [(2, 0), (2, 2)], err := none } := by
  constructor
  · intro loads server ps off fuel ys total hcode hbody hge
    simp only [paginateResults, hcode, hbody, if_true]
    rw [if_pos hge]
  · rfl

/-- C3 witness: the generic stop condition applied to the second page:
offset 2 plus page size 2 reaches the total 3, so a single further
request is issued and the run ends. -/
theorem paginate_two_pages_witness :
    paginateResults loadsPages serverPage2 2 1 2 =
      some { records := [recVal3], requests := [(2, 2)], err := none } :=
  paginate_two_pages.1 loadsPages serverPage2 2 2 0 [recVal3] 3 rfl rfl
    (by decide)

/-- C6: each iteration of the polling loop checks the elapsed time
against the timeout before issuing the status GET: when the elapsed time
exceeds the timeout at the top of an iteration, the loop raises
`JobTimeoutError` with zero GETs issued by that iteration, and the
message contains both the job id and the timeout value. -/
theorem waitLoop_timeout_before_poll (jobId : String)
    (timeout startTime : Int) (clock : Nat → Int)
    (resps : Nat → StatusResp) (fuel k : Nat) (st : JobState)
    (h : clock k - startTime > timeout) :
    waitLoop jobId timeout startTime clock resps (fuel + 1) k st =
      some { outcome := .timeoutError ("Job " ++ jobId ++
               " did not complete within " ++ toString timeout ++ " seconds"),
             job := st, polls := 0, sleeps := 0, statusTrace := [] } ∧
    (∃ x y, "Job " ++ jobId ++ " did not complete within " ++
      toString timeout ++ " seconds" = x ++ jobId ++ y) ∧
    (∃ x y, "Job " ++ jobId ++ " did not complete within " ++
      toString timeout ++ " seconds" = x ++ toString timeout ++ y) := by
  refine ⟨?_,
    ⟨"Job ", " did not complete within " ++ toString timeout ++ " seconds",
      by simp [String.append_assoc]⟩,
    ⟨"Job " ++ jobId ++ " did not complete within ", " seconds",
      by simp [String.append_assoc]⟩⟩
  simp only [waitLoop]
  rw [if_pos h]

/-- C6 witness: with the clock already 400 seconds past a 300-second
timeout, the loop raises before issuing any GET. -/
theorem waitLoop_timeout_before_poll_witness :
    (waitLoop "job-6" 300 0 (fun _ => 400)
        (fun _ => { status_code := 200, status := "running",
                    numEvents := none, error := none }) 1 0
        { status := .running, record_count := none } =
      some { outcome := .timeoutError ("Job " ++ "job-6" ++
               " did not complete within " ++ toString (300 : Int) ++ " seconds"),
             job := { status := .running, record_count := none },
             polls := 0, sleeps := 0, statusTrace := [] }) ∧
    (∃ x y, "Job " ++ "job-6" ++ " did not complete within " ++
      toString (300 : Int) ++ " seconds" = x ++ "job-6" ++ y) ∧
    (∃ x y, "Job " ++ "job-6" ++ " did not complete within " ++
      toString (300 : Int) ++ " seconds" = x ++ toString (300 : Int) ++ y) :=
  waitLoop_timeout_before_poll "job-6" 300 0 (fun _ => 400)
    (fun _ => { status_code := 200, status := "running",
                numEvents := none, error := none }) 0 0
    { status := .running, record_count := none } (by decide)

/-- Status responses: RUNNING twice, then COMPLETED with 10 events. -/
def respsC7 (k : Nat) : StatusResp :=
  if k < 2 then
    { status_code := 200, status := "running", numEvents := none,
      error := none }
  else
    { status_code := 200, status := "completed", numEvents := some 10,
      error := none }

/-- Status responses: always COMPLETED with 10 events. -/
def respsAllCompleted (k : Nat) : StatusResp :=
  { status_code := 200, status := "completed", numEvents := some 10,
    error := none }

/-- C7: an iteration that observes COMPLETED sets `record_count` from
`items[0].numEvents` (default 0 when absent) and returns; on the status
sequence RUNNING, RUNNING, COMPLETED(numEvents = 10) the loop returns
after exactly 3 status GETs with `record_count = 10`, having slept the
poll interval between the non-terminal polls. -/
theorem waitLoop_completed_sets_count :
    (∀ (jobId : String) (timeout startTime : Int) (clock : Nat → Int)
        (resps : Nat → StatusResp) (fuel k : Nat) (st : JobState),
      ¬ clock k - startTime > timeout →
      is2xx (resps k).status_code = true →
      (resps k).status = "completed" →
      waitLoop jobId timeout startTime clock resps (fuel + 1) k st =
        some { outcome := .completedOk,
               job := { status := .completed,
                        record_count := some ((resps k).numEvents.getD 0) },
               polls := 1, sleeps := 0, statusTrace := [.completed] }) ∧
    waitLoop "job-7" 300 0 (fun _ => 0) respsC7 3 0
        { status := .new, record_count := none } =
      some { outcome := .completedOk,
             job := { status := .completed, record_count := some 10 },
             polls := 3, sleeps := 2,
             statusTrace := [.running, .running, .completed] } := by
  constructor
  · intro jobId timeout startTime clock resps fuel k st htime hcode hstatus
    simp only [waitLoop]
    rw [if_neg htime]
    simp [hcode, hstatus, JobStatus.ofStr]
  · rfl

/-- C7 witness: the completed-iteration clause applied to a first poll
that immediately reports COMPLETED with 10 events. -/
theorem waitLoop_completed_sets_count_witness :
    waitLoop "job-7b" 300 0 (fun _ => 0) respsAllCompleted 1 0
        { status := .new, record_count := none } =
      some { outcome := .completedOk,
             job := { status := .completed, record_count := some 10 },
             polls := 1, sleeps := 0, statusTrace := [.completed] } :=
  Eq.trans
    (waitLoop_completed_sets_count.1 "job-7b" 300 0 (fun _ => 0)
      respsAllCompleted 0 0 { status := .new, record_count := none }
      (by decide) rfl rfl) rfl

/-- C8: an iteration that observes FAILED raises `JobFailedError`
carrying the server-provided error message (default "Unknown error")
with the job id attached; one that observes CANCELED raises
`JobFailedError` with a canceled message and the job id. -/
theorem waitLoop_failed_canceled :
    (∀ (jobId : String) (timeout startTime : Int) (clock : Nat → Int)
        (resps : Nat → StatusResp) (fuel k : Nat) (st : JobState),
      ¬ clock k - startTime > timeout →
      is2xx (resps k).status_code = true →
      (resps k).status = "failed" →
      waitLoop jobId timeout startTime clock resps (fuel + 1) k st =
        some { outcome := .jobFailed ((resps k).error.getD "Unknown error")
                 jobId,
               job := { status := .failed, record_count := st.record_count },
               polls := 1, sleeps := 0, statusTrace := [.failed] }) ∧
    (∀ (jobId : String) (timeout startTime : Int) (clock : Nat → Int)
        (resps : Nat → StatusResp) (fuel k : Nat) (st : JobState),
      ¬ clock k - startTime > timeout →
      is2xx (resps k).status_code = true →
      (resps k).status = "canceled" →
      waitLoop jobId timeout startTime clock resps (fuel + 1) k st =
        some { outcome := .jobFailed "Job was canceled" jobId,
               job := { status := .canceled, record_count := st.record_count },
               polls := 1, sleeps := 0, statusTrace := [.canceled] }) := by
  constructor
  · intro jobId timeout startTime clock resps fuel k st htime hcode hstatus
    simp only [waitLoop]
    rw [if_neg htime]
    simp [hcode, hstatus, JobStatus.ofStr]
  · intro jobId timeout startTime clock resps fuel k st htime hcode hstatus
    simp only [waitLoop]
    rw [if_neg htime]
    simp [hcode, hstatus, JobStatus.ofStr]

/-- Status responses: always FAILED with server message "boom". -/
def respsFailed (k : Nat) : StatusResp :=
  { status_code := 200, status := "failed", numEvents := none,
    error := some "boom" }

/-- Status responses: always CANCELED. -/
def respsCanceled (k : Nat) : StatusResp :=
  { status_code := 200, status := "canceled", numEvents := none,
    error := none }

/-- C8 witness: a FAILED poll with message "boom" raises
`JobFailedError("boom")` with the job id; a CANCELED poll raises
`JobFailedError("Job was canceled")` with the job id. -/
theorem waitLoop_failed_canceled_witness :
    waitLoop "job-8" 300 0 (fun _ => 0) respsFailed 1 0
        { status := .running, record_count := none } =
      some { outcome := .jobFailed "boom" "job-8",
             job := { status := .failed, record_count := none },
             polls := 1, sleeps := 0, statusTrace := [.failed] } ∧
    waitLoop "job-8c" 300 0 (fun _ => 0) respsCanceled 1 0
        { status := .running, record_count := none } =
      some { outcome := .jobFailed "Job was canceled" "job-8c",
             job := { status := .canceled, record_count := none },
             polls := 1, sleeps := 0, statusTrace := [.canceled] } :=
  ⟨Eq.trans
    (waitLoop_failed_canceled.1 "job-8" 300 0 (fun _ => 0) respsFailed 0 0
      { status := .running, record_count := none } (by decide) rfl rfl) rfl,
   Eq.trans
    (waitLoop_failed_canceled.2 "job-8c" 300 0 (fun _ => 0) respsCanceled 0 0
      { status := .running, record_count := none } (by decide) rfl rfl) rfl⟩

/-- Status responses: RUNNING once, then COMPLETED with 5 events. -/
def respsC9 (k : Nat) : StatusResp :=
  if k = 0 then
    { status_code := 200, status := "running", numEvents := none,
      error := none }
  else
    { status_code := 200, status := "completed", numEvents := some 5,
      error := none }

/-- C9 counterexample: `_wait_for_job` assigns every server-reported
status to `job.status` unconditionally, so a wait call on a job already
in the terminal status COMPLETED, on a server momentarily reporting
RUNNING, moves the status back to RUNNING: the trace of assigned
statuses starts with RUNNING, a different value from the terminal one. -/
theorem wait_overwrites_terminal_status :
    JobStatus.isTerminal .completed = true ∧
    waitLoop "job-9" 300 0 (fun _ => 0) respsC9 3 0
        { status := .completed, record_count := some 5 } =
      some { outcome := .completedOk,
             job := { status := .completed, record_count := some 5 },
             polls := 2, sleeps := 1,
             statusTrace := [.running, .completed] } ∧
    JobStatus.running ≠ JobStatus.completed :=
  ⟨rfl, rfl, by decide⟩

/-- C9 amended: provided every status the server reports is at least as
far along NEW → QUEUED → RUNNING → terminal as the job's current status
(and repeats the same terminal once one is reported), a `_wait_for_job`
run only moves the status forward and never changes a terminal status:
the chain of assigned statuses is `stepOK`-increasing from the initial
status. -/
theorem waitLoop_monotone_of_server_monotone (jobId : String)
    (timeout startTime : Int) (clock : Nat → Int)
    (resps : Nat → StatusResp) (seq : Nat → JobStatus)
    (hresp : ∀ i, JobStatus.ofStr (resps i).status = some (seq i))
    (hchain : ∀ i, stepOK (seq i) (seq (i + 1)) = true) :
    ∀ (fuel k : Nat) (st : JobState) (res : WaitResult),
      stepOK st.status (seq k) = true →
      waitLoop jobId timeout startTime clock resps fuel k st = some res →
      List.Chain (fun a b => stepOK a b = true) st.status res.statusTrace := by
  intro fuel
  induction fuel with
  | zero =>
    intro k st res h0 hrun
    simp [waitLoop] at hrun
  | succ fuel ih =>
    intro k st res h0 hrun
    simp only [waitLoop] at hrun
    by_cases ht : clock k - startTime > timeout
    · rw [if_pos ht] at hrun
      cases hrun
      exact List.Chain.nil
    · rw [if_neg ht] at hrun
      by_cases hcode : is2xx (resps k).status_code = true
      · rw [if_pos hcode, hresp k] at hrun
        simp only [] at hrun
        by_cases hc : seq k = JobStatus.completed
        · rw [if_pos hc] at hrun
          cases hrun
          exact List.Chain.cons (hc ▸ h0) List.Chain.nil
        · rw [if_neg hc] at hrun
          by_cases hf : seq k = JobStatus.failed
          · rw [if_pos hf] at hrun
            cases hrun
            exact List.Chain.cons (hf ▸ h0) List.Chain.nil
          · rw [if_neg hf] at hrun
            by_cases hca : seq k = JobStatus.canceled
            · rw [if_pos hca] at hrun
              cases hrun
              exact List.Chain.cons (hca ▸ h0) List.Chain.nil
            · rw [if_neg hca] at hrun
              cases hrec : waitLoop jobId timeout startTime clock resps fuel
                  (k + 1) { st with status := seq k } with
              | none =>
                rw [hrec] at hrun
                cases hrun
              | some rest =>
                rw [hrec] at hrun
                cases hrun
                exact List.Chain.cons h0 (ih (k + 1)
                  { st with status := seq k } rest (hchain k) hrec)
      · rw [if_neg hcode] at hrun
        cases hrun
        exact List.Chain.nil

/-- Status responses: RUNNING for the first two polls, then COMPLETED
with 7 events — a monotone report sequence. -/
def respsC9w (k : Nat) : StatusResp :=
  match k with
  | 0 =>
    { status_code := 200, status := "running", numEvents := none,
      error := none }
  | 1 =>
    { status_code := 200, status := "running", numEvents := none,
      error := none }
  | _ + 2 =>
    { status_code := 200, status := "completed", numEvents := some 7,
      error := none }

/-- The statuses reported by `respsC9w`, as enum values. -/
def seqC9w (k : Nat) : JobStatus :=
  match k with
  | 0 => .running
  | 1 => .running
  | _ + 2 => .completed

/-- C9 amended witness: on the monotone report sequence RUNNING,
RUNNING, COMPLETED from a NEW job, the assigned statuses form a forward
chain. -/
theorem waitLoop_monotone_of_server_monotone_witness :
    List.Chain (fun a b => stepOK a b = true) JobStatus.new
      [JobStatus.running, JobStatus.running, JobStatus.completed] :=
  waitLoop_monotone_of_server_monotone "job-9w" 300 0 (fun _ => 0)
    respsC9w seqC9w
    (fun i => by
      match i with
      | 0 => rfl
      | 1 => rfl
      | _ + 2 => rfl)
    (fun i => by
      match i with
      | 0 => rfl
      | 1 => rfl
      | _ + 2 => rfl)
    3 0 { status := .new, record_count := none }
    { outcome := .completedOk,
      job := { status := .completed, record_count := some 7 },
      polls := 3, sleeps := 2,
      statusTrace := [.running, .running, .completed] }
    rfl rfl

end SearchGoat
